import Mathlib

/-!
Shallow embedding of `solarsystem.py`, a matplotlib solar-system animation.

The dynamic core of the script is:
  * a static descriptor table `planet_data` (name, orbital radius, size,
    color, orbital period in frames, eccentricity, moon count);
  * a scene-build loop deriving, per planet, the semi-major axis
    `a = r / (1 - e)` and a list of moons `(orbit radius = size * 2.5,
    period = 20 * (j + 1))`;
  * a per-frame `update(frame)` that, for each planet, computes
    `angle = 2*pi*frame/period`, `r = a*(1 - e^2)/(1 + e*cos angle)`,
    `x = r*cos angle - a*e`, `y = r*sin angle`, then places each moon at
    `(x + R*cos(2*pi*frame/mp), y + R*sin(2*pi*frame/mp))`, and on frames
    with `frame % 5 == 0` perturbs each background star in place.

Exact table constants are rationals; positions are modelled over `ℝ`
(the Python floats are idealised as reals, as the spec's formulas do).
-/

/-- A row of the `planet_data` table (source lines 13-23):
name, orbital radius, display size, color, orbital period (frames),
eccentricity, number of moons. -/
structure PlanetDesc where
  name : String
  r : ℚ
  size : ℚ
  color : String
  period : ℤ
  e : ℚ
  moons : ℕ
deriving DecidableEq, Repr

/-- The static planet descriptor table, literal for literal from the source. -/
def planet_data : List PlanetDesc :=
  [⟨"Mercury", 1.5, 0.08, "darkgoldenrod", 88, 0.2, 0⟩,
   ⟨"Venus", 2.2, 0.12, "bisque", 225, 0.01, 0⟩,
   ⟨"Earth", 3.0, 0.13, "dodgerblue", 365, 0.02, 1⟩,
   ⟨"Mars", 3.8, 0.11, "tomato", 687, 0.09, 2⟩,
   ⟨"Jupiter", 5.5, 0.25, "burlywood", 4333, 0.05, 4⟩,
   ⟨"Saturn", 7.0, 0.22, "navajowhite", 10759, 0.06, 3⟩,
   ⟨"Uranus", 8.2, 0.18, "lightcyan", 30687, 0.05, 2⟩,
   ⟨"Neptune", 9.5, 0.17, "royalblue", 60190, 0.01, 1⟩]

/-- A moon as built in the scene loop (source lines 71-76): its constant
orbit radius around the parent and its constant period. -/
structure MoonState where
  orbit_radius : ℚ
  period : ℤ
deriving DecidableEq, Repr

/-- The moon list built for one planet (source lines 71-76):
`moon_orbit_radius = size * 2.5`, period `20 * (j + 1)` for `j` in
`range(num_moons)`. -/
def planet_moons (size : ℚ) (num_moons : ℕ) : List MoonState :=
  (List.range num_moons).map (fun j => ⟨size * 2.5, 20 * ((j : ℤ) + 1)⟩)

/-- The per-planet tuple stored in `planets` (source line 78):
`(circle, label, a, e, period, planet_moons)` minus the two render
handles, plus the display size the moon radii were derived from. -/
structure PlanetState where
  a : ℚ
  e : ℚ
  period : ℤ
  size : ℚ
  moons : List MoonState
deriving DecidableEq, Repr

/-- Scene build for one descriptor (source lines 58-76).  The only
computation that can abort the Python build is `a = r / (1 - e)`, which
raises `ZeroDivisionError` exactly when `e = 1`; no other validation of
the descriptor happens, so every other descriptor builds successfully. -/
def buildPlanet (d : PlanetDesc) : Option PlanetState :=
  if 1 - d.e = 0 then none
  else some ⟨d.r / (1 - d.e), d.e, d.period, d.size, planet_moons d.size d.moons⟩

/-- Scene build over the whole table (source lines 57-79): build each
planet in order; the first build-time error aborts the program. -/
def buildScene : List PlanetDesc → Option (List PlanetState)
  | [] => some []
  | d :: ds =>
    match buildPlanet d, buildScene ds with
    | some p, some ps => some (p :: ps)
    | _, _ => none

/-- The planet states actually built from `planet_data` at startup. -/
def scenePlanets : List PlanetState := (buildScene planet_data).getD []

/-- Evaluation of the scene build on the shipped table: every descriptor
builds, with `a = r / (1 - e)` and the moon lists of `planet_moons`. -/
lemma scenePlanets_eq :
    scenePlanets =
      [⟨1.5 / (1 - 0.2), 0.2, 88, 0.08, []⟩,
       ⟨2.2 / (1 - 0.01), 0.01, 225, 0.12, []⟩,
       ⟨3.0 / (1 - 0.02), 0.02, 365, 0.13, [⟨0.13 * 2.5, 20⟩]⟩,
       ⟨3.8 / (1 - 0.09), 0.09, 687, 0.11,
         [⟨0.11 * 2.5, 20⟩, ⟨0.11 * 2.5, 40⟩]⟩,
       ⟨5.5 / (1 - 0.05), 0.05, 4333, 0.25,
         [⟨0.25 * 2.5, 20⟩, ⟨0.25 * 2.5, 40⟩, ⟨0.25 * 2.5, 60⟩,
          ⟨0.25 * 2.5, 80⟩]⟩,
       ⟨7.0 / (1 - 0.06), 0.06, 10759, 0.22,
         [⟨0.22 * 2.5, 20⟩, ⟨0.22 * 2.5, 40⟩, ⟨0.22 * 2.5, 60⟩]⟩,
       ⟨8.2 / (1 - 0.05), 0.05, 30687, 0.18,
         [⟨0.18 * 2.5, 20⟩, ⟨0.18 * 2.5, 40⟩]⟩,
       ⟨9.5 / (1 - 0.01), 0.01, 60190, 0.17, [⟨0.17 * 2.5, 20⟩]⟩] := by
  norm_num [scenePlanets, buildScene, buildPlanet, planet_data, planet_moons,
    List.range_succ]

/-- C1 (counterexample): the descriptor table does not have exactly seven
rows. -/
theorem planet_data_not_seven : planet_data.length ≠ 7 := by decide

/-- C1 (amended): the static planet descriptor table contains exactly
eight descriptors, one per modeled planet, Mercury through Neptune, with
pairwise-distinct names. -/
theorem planet_data_eight :
    planet_data.length = 8 ∧
    planet_data.map PlanetDesc.name =
      ["Mercury", "Venus", "Earth", "Mars", "Jupiter", "Saturn",
       "Uranus", "Neptune"] ∧
    (planet_data.map PlanetDesc.name).Nodup := by decide

/-- C2 (counterexample): a descriptor with period `0` (and eccentricity
`0.2`, inside `[0,1)`) is malformed in the claim's sense, yet the scene
build accepts it: the program does not refuse to start. -/
theorem build_accepts_zero_period :
    (⟨"X", 1.5, 0.08, "gray", 0, 0.2, 0⟩ : PlanetDesc).period ≤ 0 ∧
    (buildScene [⟨"X", 1.5, 0.08, "gray", 0, 0.2, 0⟩]).isSome = true := by
  refine ⟨le_refl 0, ?_⟩
  norm_num [buildScene, buildPlanet]

/-- C2 (amended): the scene build performs no descriptor validation:
every descriptor whose eccentricity differs from exactly `1` (the only
value on which the semi-major-axis division aborts the build) is accepted
at scene-build time, including descriptors with zero or negative period
or eccentricity outside `[0,1)`, and its parameters flow into the
per-frame update path; the shipped table itself happens to contain only
well-formed descriptors (positive period, eccentricity in `[0,1)`). -/
theorem build_never_validates :
    (∀ d ∈ planet_data, 0 < d.period ∧ 0 ≤ d.e ∧ d.e < 1) ∧
    (∀ d : PlanetDesc, d.e ≠ 1 → (buildScene [d]).isSome = true) := by
  constructor
  · intro d hd
    fin_cases hd <;> norm_num
  · intro d h
    have h1 : 1 - d.e ≠ 0 := fun hc => h ((sub_eq_zero.mp hc).symm)
    simp [buildScene, buildPlanet, h1]

/-- C2 witness: the amended theorem applied to the Mercury row and to the
malformed test descriptor. -/
theorem build_never_validates_witness :
    (0 : ℤ) < 88 ∧
    (buildScene [⟨"X", 1.5, 0.08, "gray", 0, 0.2, 0⟩]).isSome = true :=
  ⟨(build_never_validates.1 ⟨"Mercury", 1.5, 0.08, "darkgoldenrod", 88, 0.2, 0⟩
      (by simp [planet_data])).1,
   build_never_validates.2 ⟨"X", 1.5, 0.08, "gray", 0, 0.2, 0⟩ (by norm_num)⟩

/-- C8: every planet state built from the table satisfies
`0 ≤ e < 1` and `a = r / (1 - e) > 0`; the parameters are fixed at build
time and the frame updater never writes them, so the invariant holds for
the whole run. -/
theorem scene_orbit_invariant :
    ∀ p ∈ scenePlanets, 0 ≤ p.e ∧ p.e < 1 ∧ 0 < p.a := by
  rw [scenePlanets_eq]
  intro p hp
  fin_cases hp <;> norm_num

/-- C8 witness: the invariant instantiated at the built Mercury state. -/
theorem scene_orbit_invariant_witness :
    0 ≤ (0.2 : ℚ) ∧ (0.2 : ℚ) < 1 ∧ 0 < (1.5 / (1 - 0.2) : ℚ) :=
  scene_orbit_invariant ⟨1.5 / (1 - 0.2), 0.2, 88, 0.08, []⟩
    (by rw [scenePlanets_eq]; exact List.mem_cons_self _ _)

/-- C9: for every descriptor of the table, the moon built at 0-based
index `j` has period exactly `20 * (j + 1)` frames, and the periods of
one planet's moons are pairwise distinct. -/
theorem moon_periods :
    ∀ d ∈ planet_data,
      (∀ j, j < (planet_moons d.size d.moons).length →
        ((planet_moons d.size d.moons).getD j ⟨0, 0⟩).period =
          20 * ((j : ℤ) + 1)) ∧
      ((planet_moons d.size d.moons).map MoonState.period).Nodup := by
  intro d hd
  fin_cases hd <;> exact ⟨by decide, by decide⟩

/-- C9 witness: the Mars row (two moons): moon 0 has period 20 and the
periods are distinct. -/
theorem moon_periods_witness :
    ((planet_moons (0.11 : ℚ) 2).getD 0 ⟨0, 0⟩).period =
      20 * (((0 : ℕ) : ℤ) + 1) ∧
    ((planet_moons (0.11 : ℚ) 2).map MoonState.period).Nodup :=
  ⟨(moon_periods ⟨"Mars", 3.8, 0.11, "tomato", 687, 0.09, 2⟩
      (by simp [planet_data])).1 0 (by decide),
   (moon_periods ⟨"Mars", 3.8, 0.11, "tomato", 687, 0.09, 2⟩
      (by simp [planet_data])).2⟩

/-- Planet position of the per-frame update (source lines 94-98):
`angle = 2*pi*frame/period`, `r = a*(1 - e^2)/(1 + e*cos angle)`,
`x = r*cos angle - a*e`, `y = r*sin angle`. -/
noncomputable def planetPosition (p : PlanetState) (frame : ℝ) : ℝ × ℝ :=
  let angle := 2 * Real.pi * frame / (p.period : ℝ)
  let r := (p.a : ℝ) * (1 - (p.e : ℝ) ^ 2) / (1 + (p.e : ℝ) * Real.cos angle)
  (r * Real.cos angle - (p.a : ℝ) * (p.e : ℝ), r * Real.sin angle)

/-- Moon position of the per-frame update (source lines 105-109), a
circular offset from the parent position computed in the same tick:
`moon_angle = 2*pi*frame/moon_period`,
`(moon_x, moon_y) = (x + R*cos moon_angle, y + R*sin moon_angle)`. -/
noncomputable def moonPosition (parent : ℝ × ℝ) (m : MoonState) (frame : ℝ) :
    ℝ × ℝ :=
  let moon_angle := 2 * Real.pi * frame / (m.period : ℝ)
  (parent.1 + (m.orbit_radius : ℝ) * Real.cos moon_angle,
   parent.2 + (m.orbit_radius : ℝ) * Real.sin moon_angle)

/-- One star's drift step (source lines 113-116).  The source mutates
`x_stars[i]` first and then reads the mutated value when updating
`y_stars[i]`, so the second delta uses the already-updated x. -/
noncomputable def driftStar (x y : ℝ) : ℝ × ℝ :=
  let distance := Real.sqrt (x ^ 2 + y ^ 2)
  let x1 := x + 0.001 * (12 - distance) * (-y) / (distance + 0.1)
  let y1 := y + 0.001 * (12 - distance) * x1 / (distance + 0.1)
  (x1, y1)

/-- The starfield part of `update` (source lines 111-116): only on frames
with `frame % 5 == 0` is each star perturbed in place. -/
noncomputable def updateStars (frame : ℕ) (stars : List (ℝ × ℝ)) :
    List (ℝ × ℝ) :=
  if frame % 5 = 0 then stars.map (fun s => driftStar s.1 s.2) else stars

/-- The mutable render state touched by `update`: planet circle centers,
moon circle centers (grouped by parent planet), and star coordinates. -/
structure SceneState where
  planetCenters : List (ℝ × ℝ)
  moonCenters : List (List (ℝ × ℝ))
  stars : List (ℝ × ℝ)

/-- The whole per-frame update (source lines 90-116): every planet center
is overwritten with `planetPosition` of the current frame, every moon
center with `moonPosition` around its parent's position of this same
tick, and the starfield is perturbed on every 5th frame. -/
noncomputable def update (ps : List PlanetState) (frame : ℕ) (s : SceneState) :
    SceneState :=
  { planetCenters := ps.map (fun p => planetPosition p (frame : ℝ)),
    moonCenters := ps.map (fun p =>
      p.moons.map (fun m => moonPosition (planetPosition p (frame : ℝ)) m (frame : ℝ))),
    stars := updateStars frame s.stars }

/-- Euclidean distance in the plane. -/
noncomputable def dist2 (p q : ℝ × ℝ) : ℝ :=
  Real.sqrt ((p.1 - q.1) ^ 2 + (p.2 - q.2) ^ 2)

/-- Nonnegativity of the moon orbit radii actually built from the table
(they are `size * 2.5` with positive sizes). -/
lemma scene_moon_radius_nonneg :
    ∀ p ∈ scenePlanets, ∀ m ∈ p.moons, (0 : ℚ) ≤ m.orbit_radius := by
  rw [scenePlanets_eq]
  intro p hp
  fin_cases hp <;> intro m hm <;> fin_cases hm <;> norm_num

/-- C4: the moon centers written by `update` are `moonPosition` offsets
from the parent's position of the same tick (first conjunct, so the moon
never sees a stale parent position), and for every planet built from the
table, every one of its moons and every frame, that moon position lies at
Euclidean distance exactly `orbit_radius` from the parent position of the
same tick (second conjunct). -/
theorem moon_distance_invariant :
    (∀ (ps : List PlanetState) (f : ℕ) (s : SceneState),
      (update ps f s).moonCenters =
        ps.map (fun p => p.moons.map
          (fun m => moonPosition (planetPosition p (f : ℝ)) m (f : ℝ)))) ∧
    (∀ p ∈ scenePlanets, ∀ m ∈ p.moons, ∀ f : ℝ,
      dist2 (moonPosition (planetPosition p f) m f) (planetPosition p f)
        = (m.orbit_radius : ℝ)) := by
  constructor
  · intro ps f s
    rfl
  · intro p hp m hm f
    have hR : (0 : ℝ) ≤ (m.orbit_radius : ℝ) := by
      exact_mod_cast scene_moon_radius_nonneg p hp m hm
    have hs := Real.sin_sq_add_cos_sq (2 * Real.pi * f / (m.period : ℝ))
    simp only [dist2, moonPosition]
    have key : ((planetPosition p f).1 +
          (m.orbit_radius : ℝ) * Real.cos (2 * Real.pi * f / (m.period : ℝ)) -
          (planetPosition p f).1) ^ 2 +
        ((planetPosition p f).2 +
          (m.orbit_radius : ℝ) * Real.sin (2 * Real.pi * f / (m.period : ℝ)) -
          (planetPosition p f).2) ^ 2 = (m.orbit_radius : ℝ) ^ 2 := by
      linear_combination ((m.orbit_radius : ℝ) ^ 2) * hs
    rw [key, Real.sqrt_sq hR]

/-- C4 witness: Earth's single moon at frame 0 sits at distance exactly
`0.13 * 2.5` from Earth's frame-0 position. -/
theorem moon_distance_invariant_witness :
    dist2
      (moonPosition
        (planetPosition ⟨3.0 / (1 - 0.02), 0.02, 365, 0.13, [⟨0.13 * 2.5, 20⟩]⟩ 0)
        ⟨0.13 * 2.5, 20⟩ 0)
      (planetPosition ⟨3.0 / (1 - 0.02), 0.02, 365, 0.13, [⟨0.13 * 2.5, 20⟩]⟩ 0)
      = ((0.13 * 2.5 : ℚ) : ℝ) :=
  moon_distance_invariant.2 ⟨3.0 / (1 - 0.02), 0.02, 365, 0.13, [⟨0.13 * 2.5, 20⟩]⟩
    (by rw [scenePlanets_eq]; simp) ⟨0.13 * 2.5, 20⟩ (by simp) 0

/-- Closed-orbit helper: `planetPosition` is periodic in the frame with
period `p.period` whenever the period is non-zero, because the orbit
angle advances by exactly `2*pi`. -/
lemma planetPosition_periodic (p : PlanetState) (f : ℝ)
    (h : ((p.period : ℤ) : ℝ) ≠ 0) :
    planetPosition p (f + (p.period : ℝ)) = planetPosition p f := by
  have key : 2 * Real.pi * (f + (p.period : ℝ)) / (p.period : ℝ)
      = 2 * Real.pi * f / (p.period : ℝ) + 2 * Real.pi := by
    field_simp
    ring
  simp only [planetPosition, key, Real.cos_add_two_pi, Real.sin_add_two_pi]

/-- C5: for every planet built from the table and every frame, the orbit
position at `f + period` equals the position at `f`: the orbit closes
exactly after one period. -/
theorem orbit_periodicity :
    ∀ p ∈ scenePlanets, ∀ f : ℝ,
      planetPosition p (f + (p.period : ℝ)) = planetPosition p f := by
  intro p hp f
  apply planetPosition_periodic
  have hper : p.period ≠ 0 := by
    rw [scenePlanets_eq] at hp
    fin_cases hp <;> decide
  exact_mod_cast hper

/-- C5 witness: Earth's orbit at frame `0 + 365` equals its frame-0
position. -/
theorem orbit_periodicity_witness :
    planetPosition ⟨3.0 / (1 - 0.02), 0.02, 365, 0.13, [⟨0.13 * 2.5, 20⟩]⟩
        (0 + ((365 : ℤ) : ℝ))
      = planetPosition ⟨3.0 / (1 - 0.02), 0.02, 365, 0.13, [⟨0.13 * 2.5, 20⟩]⟩ 0 :=
  orbit_periodicity ⟨3.0 / (1 - 0.02), 0.02, 365, 0.13, [⟨0.13 * 2.5, 20⟩]⟩
    (by rw [scenePlanets_eq]; simp) 0

/-- C7: the per-frame planet and moon positions written by `update` are a
pure function of the frame index and the static orbital parameters: the
planet centers are exactly `planetPosition` of the frame, and neither the
planet centers nor the moon centers depend on any prior mutable scene
state (no accumulated deltas across frames). -/
theorem update_pure :
    ∀ (ps : List PlanetState) (f : ℕ) (s1 s2 : SceneState),
      (update ps f s1).planetCenters = ps.map (fun p => planetPosition p (f : ℝ)) ∧
      (update ps f s1).planetCenters = (update ps f s2).planetCenters ∧
      (update ps f s1).moonCenters = (update ps f s2).moonCenters :=
  fun _ _ _ _ => ⟨rfl, rfl, rfl⟩

/-- C10: for every planet built from the table and every frame, the
orbit denominator `1 + e*cos(angle)` is bounded below by `1 - e`, which
is at least `0.8` on this table, hence strictly positive; and the star
drift denominator `distance + 0.1` is at least `0.1` for every star
position, origin included. -/
theorem no_zero_denominators :
    (∀ p ∈ scenePlanets, ∀ f : ℝ,
      (0.8 : ℝ) ≤ 1 - (p.e : ℝ) ∧
      1 - (p.e : ℝ) ≤ 1 + (p.e : ℝ) * Real.cos (2 * Real.pi * f / (p.period : ℝ)) ∧
      0 < 1 + (p.e : ℝ) * Real.cos (2 * Real.pi * f / (p.period : ℝ))) ∧
    (∀ x y : ℝ, (0.1 : ℝ) ≤ Real.sqrt (x ^ 2 + y ^ 2) + 0.1) := by
  constructor
  · intro p hp f
    have he : (0 : ℚ) ≤ p.e ∧ p.e ≤ 1 / 5 := by
      rw [scenePlanets_eq] at hp
      fin_cases hp <;> norm_num
    have he0 : (0 : ℝ) ≤ (p.e : ℝ) := by exact_mod_cast he.1
    have he2 : (p.e : ℝ) ≤ 1 / 5 := by
      rw [show (1 / 5 : ℝ) = ((1 / 5 : ℚ) : ℝ) by norm_num]
      exact Rat.cast_le.mpr he.2
    have hcos := Real.neg_one_le_cos (2 * Real.pi * f / (p.period : ℝ))
    refine ⟨by norm_num; linarith, by nlinarith, by nlinarith⟩
  · intro x y
    have hs := Real.sqrt_nonneg (x ^ 2 + y ^ 2)
    linarith

/-- C10 witness: the Mercury denominator bound at frame 0 and the star
denominator bound at the origin. -/
theorem no_zero_denominators_witness :
    (0.8 : ℝ) ≤ 1 - ((0.2 : ℚ) : ℝ) ∧
    (0.1 : ℝ) ≤ Real.sqrt ((0 : ℝ) ^ 2 + 0 ^ 2) + 0.1 :=
  ⟨(no_zero_denominators.1 ⟨1.5 / (1 - 0.2), 0.2, 88, 0.08, []⟩
      (by rw [scenePlanets_eq]; exact List.mem_cons_self _ _) 0).1,
   no_zero_denominators.2 0 0⟩

/-- The exact distance of a star at `(3, 4)`. -/
lemma sqrt_of_nine_plus_sixteen : Real.sqrt ((3 : ℝ) ^ 2 + 4 ^ 2) = 5 := by
  rw [show ((3 : ℝ) ^ 2 + 4 ^ 2) = 5 ^ 2 by norm_num, Real.sqrt_sq (by norm_num)]

/-- C3 (counterexample): on frame 0 (a multiple of 5), the star at
`(3, 4)` (distance 5, `k = 0.001 * (12 - 5) / (5 + 0.1)`) is NOT moved to
`(3 - k*4, 4 + k*3)`: the code computes the y-delta from the
already-updated x-coordinate, not from the pre-step position. -/
theorem star_drift_prestep_false :
    updateStars 0 [((3 : ℝ), 4)] ≠
      [((3 : ℝ) - 0.001 * (12 - Real.sqrt ((3 : ℝ) ^ 2 + 4 ^ 2)) /
          (Real.sqrt ((3 : ℝ) ^ 2 + 4 ^ 2) + 0.1) * 4,
        (4 : ℝ) + 0.001 * (12 - Real.sqrt ((3 : ℝ) ^ 2 + 4 ^ 2)) /
          (Real.sqrt ((3 : ℝ) ^ 2 + 4 ^ 2) + 0.1) * 3)] := by
  intro h
  simp only [updateStars, driftStar, List.map, sqrt_of_nine_plus_sixteen] at h
  norm_num at h

/-- C3 (amended): on every frame `f` with `f % 5 == 0` (and only those
frames) the frame updater moves each star, writing `d` for its pre-step
distance from the origin and `k = 0.001 * (12 - d) / (d + 0.1)`, from
`(x, y)` to `(x - k*y, y + k*(x - k*y))`: the x-delta is computed from
the pre-step position but the y-delta reads the already-updated
x-coordinate.  The factor `k` is nonincreasing in `d` on `[0, 12]`
(second conjunct).  The perturbation stays cumulative: `updateStars`
rewrites the star list in place each time it fires. -/
theorem star_drift_update :
    (∀ (f : ℕ) (stars : List (ℝ × ℝ)),
      updateStars f stars =
        if f % 5 = 0 then
          stars.map (fun s =>
            (s.1 - 0.001 * (12 - Real.sqrt (s.1 ^ 2 + s.2 ^ 2)) /
                (Real.sqrt (s.1 ^ 2 + s.2 ^ 2) + 0.1) * s.2,
             s.2 + 0.001 * (12 - Real.sqrt (s.1 ^ 2 + s.2 ^ 2)) /
                (Real.sqrt (s.1 ^ 2 + s.2 ^ 2) + 0.1) *
                (s.1 - 0.001 * (12 - Real.sqrt (s.1 ^ 2 + s.2 ^ 2)) /
                  (Real.sqrt (s.1 ^ 2 + s.2 ^ 2) + 0.1) * s.2)))
        else stars) ∧
    (∀ d1 d2 : ℝ, 0 ≤ d1 → d1 ≤ d2 → d2 ≤ 12 →
      0.001 * (12 - d2) / (d2 + 0.1) ≤ 0.001 * (12 - d1) / (d1 + 0.1)) := by
  constructor
  · intro f stars
    simp only [updateStars]
    split
    · apply List.map_congr_left
      intro s _
      simp only [driftStar, Prod.ext_iff]
      exact ⟨by ring, by ring⟩
    · rfl
  · intro d1 d2 h0 h12 h212
    rw [div_le_div_iff₀ (by linarith) (by linarith)]
    nlinarith

/-- C3 witness: the drift factor at distance 1 is at most the factor at
distance 0. -/
theorem star_drift_update_witness :
    0.001 * (12 - (1 : ℝ)) / ((1 : ℝ) + 0.1) ≤
      0.001 * (12 - (0 : ℝ)) / ((0 : ℝ) + 0.1) :=
  star_drift_update.2 0 1 (by norm_num) (by norm_num) (by norm_num)

/-- C6: at frame 0 every planet's orbit angle `2*pi*0/period` is 0, and
the Earth state built from the table (row index 2, `a = 3.0 / (1 - 0.02)`,
`e = 0.02`) has frame-0 position exactly `(144/49, 0)`, where
`144/49 = a*(1 - e) - a*e` is within `1/1000` of `2.939`. -/
theorem earth_frame_zero :
    (∀ p : PlanetState, 2 * Real.pi * 0 / (p.period : ℝ) = 0) ∧
    scenePlanets.getD 2 ⟨0, 0, 0, 0, []⟩
      = ⟨3.0 / (1 - 0.02), 0.02, 365, 0.13, [⟨0.13 * 2.5, 20⟩]⟩ ∧
    planetPosition ⟨3.0 / (1 - 0.02), 0.02, 365, 0.13, [⟨0.13 * 2.5, 20⟩]⟩ 0
      = (((144 / 49 : ℚ) : ℝ), 0) ∧
    |((144 / 49 : ℚ) : ℝ) - 2.939| < 1 / 1000 := by
  refine ⟨fun p => by simp, ?_, ?_, ?_⟩
  · rw [scenePlanets_eq]
    rfl
  · simp only [planetPosition]
    norm_num [Real.cos_zero, Real.sin_zero, Prod.ext_iff]
  · rw [abs_lt]
    constructor <;> norm_num
